import Mathlib

/-
Verification of the unemployment-visualization endpoint (project/app/api/viz.py).

The Python module is embedded shallowly:

* Dates are triples of year/month/day (pandas datetimes carry no more
  structure that the module uses).
* Percentage values are rationals; `np.mean` over a column is embedded as
  sum-divided-by-length over the corresponding list.
* The module-level constant `five_yrs = datetime.now().year - 5` is a wall
  clock read; it is embedded as an explicit parameter `y5` threaded to every
  function, exactly once per request, as in the source.
* The external CSV fetches (`pd.read_csv(url)`) are IO; the fetched
  dataframes appear as explicit `Series` arguments, and the endpoint is
  parameterized by a pure `fetch : String -> Series` so that independence of
  a result from every possible fetched datum expresses that no fetched data
  influenced it.
* The plotly figure is embedded structurally: title, traces (name, line
  color, dash style, x/y data), axis titles.  Rendering to JSON or PNG is a
  library concern and is outside the model.
* Python `None`-able strings are `Option String`; Python truthiness of a
  string (`if statecode3:`) is `truthy` below, false on both `none` and the
  empty string, as in Python.
-/

namespace Viz

/-- A calendar date as the module consumes it: the `.dt.year`, `.dt.month`
and `.dt.day` accessors of a parsed `DATE` column. -/
structure Date where
  year : Int
  month : Nat
  day : Nat
deriving DecidableEq

/-- One row of a fetched FRED dataframe after the columns are renamed to
`['Date', 'Percent']`. -/
structure Obs where
  date : Date
  percent : ℚ
deriving DecidableEq

/-- A fetched dataframe: the ordered rows of one CSV. -/
abbrev Series := List Obs

/-- The `statecodes` dict of viz.py: the 51 recognized postal codes with
their display names (50 states plus the District of Columbia). -/
def statecodes : List (String × String) :=
  [("AL", "Alabama"), ("AK", "Alaska"), ("AZ", "Arizona"), ("AR", "Arkansas"),
   ("CA", "California"), ("CO", "Colorado"), ("CT", "Connecticut"),
   ("DE", "Delaware"), ("DC", "District of Columbia"), ("FL", "Florida"),
   ("GA", "Georgia"), ("HI", "Hawaii"), ("ID", "Idaho"), ("IL", "Illinois"),
   ("IN", "Indiana"), ("IA", "Iowa"), ("KS", "Kansas"), ("KY", "Kentucky"),
   ("LA", "Louisiana"), ("ME", "Maine"), ("MD", "Maryland"),
   ("MA", "Massachusetts"), ("MI", "Michigan"), ("MN", "Minnesota"),
   ("MS", "Mississippi"), ("MO", "Missouri"), ("MT", "Montana"),
   ("NE", "Nebraska"), ("NV", "Nevada"), ("NH", "New Hampshire"),
   ("NJ", "New Jersey"), ("NM", "New Mexico"), ("NY", "New York"),
   ("NC", "North Carolina"), ("ND", "North Dakota"), ("OH", "Ohio"),
   ("OK", "Oklahoma"), ("OR", "Oregon"), ("PA", "Pennsylvania"),
   ("RI", "Rhode Island"), ("SC", "South Carolina"), ("SD", "South Dakota"),
   ("TN", "Tennessee"), ("TX", "Texas"), ("UT", "Utah"), ("VT", "Vermont"),
   ("VA", "Virginia"), ("WA", "Washington"), ("WV", "West Virginia"),
   ("WI", "Wisconsin"), ("WY", "Wyoming")]

/-- Python `code in statecodes`: membership among the dict keys. -/
def isRegistered (c : String) : Bool :=
  (statecodes.map Prod.fst).contains c

/-- Python `statecodes.get(code)`: the display name, `None` when absent. -/
def lookupState (c : String) : Option String :=
  (statecodes.find? (fun p => p.1 == c)).map Prod.snd

/-- Python `code.upper()`: upper-case every character.  (The inputs the
endpoint cares about are ASCII postal codes, for which `Char.toUpper`
coincides with Python's `str.upper`.) -/
def pyUpper (s : String) : String :=
  String.mk (s.data.map Char.toUpper)

/-- Python `str(x)` as an f-string renders `None` as the text "None". -/
def pyStr : Option String → String
  | none => "None"
  | some s => s

/-- Python truthiness of an `Optional[str]`: `None` and `""` are falsy. -/
def truthy : Option String → Bool
  | none => false
  | some s => !s.isEmpty

/-- Python `code in statecodes` applied to an `Optional[str]`:
`None in statecodes` is `False`. -/
def registeredOpt : Option String → Bool
  | none => false
  | some s => isRegistered s

/-- The 404 detail string `f'State code {code} not found'` of viz.py. -/
def detailMsg (c : String) : String :=
  "State code " ++ c ++ " not found"

/-- The four sequential deduplication `if` statements of the endpoint
(viz.py lines 78-93), operating on the upper-cased slot values.  The first
slot is never reassigned; the function returns the final values of slots 2
and 3.  Each `if` reads the values left by the previous one, as in the
source. -/
def dedup (s1 : String) (s2 s3 : Option String) : Option String × Option String :=
  -- CASE: Statecode 1 = 2 = 3
  let a : Option String × Option String :=
    if some s1 = s2 ∧ s2 = s3 then (none, none) else (s2, s3)
  -- CASE: Statecode 1 = 3
  let b : Option String × Option String :=
    if some s1 = a.2 then (a.1, none) else a
  -- CASE: Statecode 2 = 3
  let c : Option String × Option String :=
    if b.1 = b.2 then (b.1, none) else b
  -- CASE: Statecode 1 = 2
  if some s1 = c.1 then
    (if truthy c.2 then (c.2, none) else (none, c.2))
  else c

/-- Which arity handler a normalized request is routed to, with the code
slots passed to it. -/
inductive Dispatch where
  | one (c1 : String)
  | two (c1 c2 : String)
  | three (c1 c2 c3 : String)
deriving DecidableEq

/-- The three dispatch conditionals of the endpoint (viz.py lines 95-109).
Each branch `return`s, so the sequential `if`s behave as a chain; when no
branch matches the Python function falls off the end and returns `None`. -/
def dispatch (s1 : String) (s2 s3 : Option String) : Option Dispatch :=
  if (!s1.isEmpty) ∧ (!truthy s2) ∧ (!truthy s3) then some (Dispatch.one s1)
  else if (!s1.isEmpty) ∧ truthy s2 ∧ (!truthy s3) then
    some (Dispatch.two s1 (s2.getD ""))
  else if (!s1.isEmpty) ∧ truthy s2 ∧ truthy s3 then
    some (Dispatch.three s1 (s2.getD "") (s3.getD ""))
  else none

/-- The request-normalization prefix of `unemployment_visualization`
(viz.py lines 62-109): upper-case the slots, 404 on the first unregistered
non-empty slot, then deduplicate and dispatch.  `Except.error d` is the
`HTTPException(status_code=404, detail=d)`; `Except.ok none` is the Python
function returning `None` (HTTP 200 with a null body). -/
def normalizeRequest (statecode : String) (statecode2 statecode3 : Option String) :
    Except String (Option Dispatch) :=
  let s1 := pyUpper statecode
  let s2 := statecode2.map pyUpper
  let s3 := statecode3.map pyUpper
  if !isRegistered s1 then Except.error (detailMsg s1)
  else if (!registeredOpt s2) ∧ truthy s2 then Except.error (detailMsg (s2.getD ""))
  else if (!registeredOpt s3) ∧ truthy s3 then Except.error (detailMsg (s3.getD ""))
  else
    let p := dedup s1 s2 s3
    Except.ok (dispatch s1 p.1 p.2)

/-- Python `min(df['Date'].dt.year)`: the least year in a series.  The
source never applies it to an empty dataframe (it would raise); the value on
`[]` is an arbitrary total-function default. -/
def minYear : Series → Int
  | [] => 0
  | o :: rest => rest.foldl (fun m x => min m x.date.year) o.date.year

/-- Python `min(df['Date'].dt.month)`. -/
def minMonth : Series → Nat
  | [] => 0
  | o :: rest => rest.foldl (fun m x => min m x.date.month) o.date.month

/-- Python `min(df['Date'].dt.day)`. -/
def minDay : Series → Nat
  | [] => 0
  | o :: rest => rest.foldl (fun m x => min m x.date.day) o.date.day

/-- The national-series restriction of `single` (viz.py lines 128-130): keep
the rows whose year, month and day components each meet the state series'
minimum for that component. -/
def alignNational1 (us st : Series) : Series :=
  us.filter (fun o =>
    decide (minYear st ≤ o.date.year) &&
    decide (minMonth st ≤ o.date.month) &&
    decide (minDay st ≤ o.date.day))

/-- The national-series restriction of `two` (viz.py lines 208-213). -/
def alignNational2 (us st st2 : Series) : Series :=
  us.filter (fun o =>
    decide (minYear st ≤ o.date.year) &&
    decide (minYear st2 ≤ o.date.year) &&
    decide (minMonth st ≤ o.date.month) &&
    decide (minMonth st2 ≤ o.date.month) &&
    decide (minDay st ≤ o.date.day) &&
    decide (minDay st2 ≤ o.date.day))

/-- The national-series restriction of `three` (viz.py lines 304-312). -/
def alignNational3 (us st st2 st3 : Series) : Series :=
  us.filter (fun o =>
    decide (minYear st ≤ o.date.year) &&
    decide (minYear st2 ≤ o.date.year) &&
    decide (minYear st3 ≤ o.date.year) &&
    decide (minMonth st ≤ o.date.month) &&
    decide (minMonth st2 ≤ o.date.month) &&
    decide (minMonth st3 ≤ o.date.month) &&
    decide (minDay st ≤ o.date.day) &&
    decide (minDay st2 ≤ o.date.day) &&
    decide (minDay st3 ≤ o.date.day))

/-- `np.mean` of a list of values: sum divided by count. -/
def listMean (xs : List ℚ) : ℚ :=
  xs.sum / (xs.length : ℚ)

/-- `np.mean(df[(df['Date'].dt.year == five_yrs)]['Percent'])`: the mean of
the percentage values whose observation year equals `y5` (the module
constant `five_yrs`). -/
def trailingMean (y5 : Int) (s : Series) : ℚ :=
  listMean ((s.filter (fun o => o.date.year == y5)).map Obs.percent)

/-- The `style` dict built by `single`, read back with `.get` (so absent
keys are `none`). -/
structure StyleSingle where
  title : Option String
  state1color : Option String
  us_color : Option String
deriving DecidableEq

/-- The comparison chain of `single` (viz.py lines 140-151).  `statename` is
the already-looked-up display name; `st` and `us` are the trailing means.
The final record is the untouched empty dict: with real-number means the
three tests are exhaustive, but `np.mean` of an empty selection is NaN,
which fails all three, so the source leaves the dict empty. -/
def styleSingle (statename : String) (st us : ℚ) (y5 : Int) : StyleSingle :=
  if st > us then
    { title := some (statename ++ " Unemployment Rates Averaged Higher than the United States since " ++ toString y5 ++ "."),
      state1color := some "#CC0000", us_color := some "#4BB543" }
  else if st < us then
    { title := some (statename ++ " Unemployment Rates Averaged Lower than the United States since " ++ toString y5 ++ "."),
      state1color := some "#4BB543", us_color := some "#CC0000" }
  else if st = us then
    { title := some (statename ++ " Averaged the Same Unemployment as the United States since " ++ toString y5 ++ "."),
      state1color := some "#4BB543", us_color := some "darkcyan" }
  else
    { title := none, state1color := none, us_color := none }

/-- The `style` dict built by `two`. -/
structure StyleTwo where
  title : Option String
  state1color : Option String
  state2color : Option String
  us_color : Option String
deriving DecidableEq

/-- The comparison chain of `two` (viz.py lines 222-236). -/
def styleTwo (statename state2 : String) (st st2 : ℚ) (y5 : Int) : StyleTwo :=
  if st > st2 then
    { title := some (statename ++ " Averaged Higher Unemployment than " ++ state2 ++ " since " ++ toString y5 ++ "."),
      state1color := some "#CC0000", state2color := some "#4BB543",
      us_color := some "black" }
  else if st < st2 then
    { title := some (statename ++ " Averaged Lower Unemployment than " ++ state2 ++ " since " ++ toString y5 ++ "."),
      state1color := some "#4BB543", state2color := some "#CC0000",
      us_color := some "black" }
  else if st = st2 then
    { title := some (statename ++ " and " ++ state2 ++ " Averaged the Same Unemployment since " ++ toString y5 ++ "."),
      state1color := some "#4BB543", state2color := some "darkcyan",
      us_color := some "black" }
  else
    { title := none, state1color := none, state2color := none, us_color := none }

/-- The `style` dict built by `three`. -/
structure StyleThree where
  title : Option String
  state1color : Option String
  state2color : Option String
  state3color : Option String
  us_color : Option String
deriving DecidableEq

/-- The six-branch comparison chain of `three` (viz.py lines 322-362).  The
branches cover exactly the six strict total orderings of the three means;
any tie falls through every branch and leaves the dict empty. -/
def styleThree (statename state2 state3 : String) (st st2 st3 : ℚ) (y5 : Int) :
    StyleThree :=
  if st > st2 ∧ st2 > st3 then
    { title := some (statename ++ " Averaged Higher Unemployment than " ++ state2 ++ " and " ++ state3 ++ " since " ++ toString y5 ++ "."),
      state1color := some "#CC0000", state2color := some "darkcyan",
      state3color := some "#4BB543", us_color := some "black" }
  else if st > st3 ∧ st3 > st2 then
    { title := some (statename ++ " Averaged Higher Unemployment than " ++ state2 ++ " and " ++ state3 ++ " since " ++ toString y5 ++ "."),
      state1color := some "#CC0000", state2color := some "#4BB543",
      state3color := some "darkcyan", us_color := some "black" }
  else if st2 > st ∧ st > st3 then
    { title := some (statename ++ " Averaged Higher Unemployment than " ++ state3 ++ ", but lower than " ++ state2 ++ " since " ++ toString y5 ++ "."),
      state1color := some "darkcyan", state2color := some "#CC0000",
      state3color := some "#4BB543", us_color := some "black" }
  else if st2 > st3 ∧ st3 > st then
    { title := some (statename ++ " Averaged Lower Unemployment than " ++ state2 ++ " and " ++ state3 ++ " since " ++ toString y5 ++ "."),
      state1color := some "#4BB543", state2color := some "#CC0000",
      state3color := some "darkcyan", us_color := some "black" }
  else if st3 > st2 ∧ st2 > st then
    { title := some (statename ++ " Averaged Lower Unemployment than " ++ state2 ++ " and " ++ state3 ++ " since " ++ toString y5 ++ "."),
      state1color := some "#4BB543", state2color := some "darkcyan",
      state3color := some "#CC0000", us_color := some "black" }
  else if st3 > st ∧ st > st2 then
    { title := some (statename ++ " Averaged Lower Unemployment than " ++ state3 ++ ", but higher than " ++ state2 ++ " since " ++ toString y5 ++ "."),
      state1color := some "darkcyan", state2color := some "#4BB543",
      state3color := some "#CC0000", us_color := some "black" }
  else
    { title := none, state1color := none, state2color := none,
      state3color := none, us_color := none }

/-- How many of the six comparison conditions of `three` hold for the given
means, with the conditions written exactly as in viz.py lines 322-357. -/
def branchCount (st st2 st3 : ℚ) : Nat :=
  (if st > st2 ∧ st2 > st3 then 1 else 0) +
  (if st > st3 ∧ st3 > st2 then 1 else 0) +
  (if st2 > st ∧ st > st3 then 1 else 0) +
  (if st2 > st3 ∧ st3 > st then 1 else 0) +
  (if st3 > st2 ∧ st2 > st then 1 else 0) +
  (if st3 > st ∧ st > st2 then 1 else 0)

/-- One `go.Scatter` trace: legend name, line color, line dash style, and
the x/y data columns. -/
structure Trace where
  name : Option String
  color : Option String
  dash : Option String
  x : List Date
  y : List ℚ
deriving DecidableEq

/-- The assembled `go.Figure`: title, traces in insertion order, and the
axis titles set by `update_xaxes` / `update_yaxes`. -/
structure Figure where
  title : Option String
  traces : List Trace
  xTitle : String
  yTitle : String
deriving DecidableEq

/-- The `single` builder (viz.py lines 112-183) with the two fetched
dataframes as arguments.  The national series is aligned before either mean
is computed, as in the source; both means use the module constant `y5`. -/
def single (statecode : String) (df df_us0 : Series) (y5 : Int) : Figure :=
  let statename := lookupState statecode
  let df_us := alignNational1 df_us0 df
  let us_5yrs := trailingMean y5 df_us
  let st_5yrs := trailingMean y5 df
  let style := styleSingle (pyStr statename) st_5yrs us_5yrs y5
  { title := style.title,
    traces :=
      [{ name := statename, color := style.state1color, dash := none,
         x := df.map Obs.date, y := df.map Obs.percent },
       { name := some "United States", color := style.us_color,
         dash := some "dash", x := df_us.map Obs.date, y := df_us.map Obs.percent }],
    xTitle := "Date", yTitle := "Percent Unemployed" }

/-- The `two` builder (viz.py lines 186-273). -/
def two (statecode statecode2 : String) (df df_2 df_us0 : Series) (y5 : Int) :
    Figure :=
  let statename := lookupState statecode
  let state2 := lookupState statecode2
  let df_us := alignNational2 df_us0 df df_2
  let st_5yrs := trailingMean y5 df
  let st2_5yrs := trailingMean y5 df_2
  let style := styleTwo (pyStr statename) (pyStr state2) st_5yrs st2_5yrs y5
  { title := style.title,
    traces :=
      [{ name := statename, color := style.state1color, dash := none,
         x := df.map Obs.date, y := df.map Obs.percent },
       { name := state2, color := style.state2color, dash := none,
         x := df_2.map Obs.date, y := df_2.map Obs.percent },
       { name := some "United States", color := style.us_color,
         dash := some "dash", x := df_us.map Obs.date, y := df_us.map Obs.percent }],
    xTitle := "Date", yTitle := "Percent Unemployed" }

/-- The `three` builder (viz.py lines 276-400).  Note the trace order of the
source: first state, then the national line, then the second and third
states. -/
def three (statecode statecode2 statecode3 : String)
    (df df_2 df_3 df_us0 : Series) (y5 : Int) : Figure :=
  let statename := lookupState statecode
  let state2 := lookupState statecode2
  let state3 := lookupState statecode3
  let df_us := alignNational3 df_us0 df df_2 df_3
  let st_5yrs := trailingMean y5 df
  let st2_5yrs := trailingMean y5 df_2
  let st3_5yrs := trailingMean y5 df_3
  let style := styleThree (pyStr statename) (pyStr state2) (pyStr state3)
    st_5yrs st2_5yrs st3_5yrs y5
  { title := style.title,
    traces :=
      [{ name := statename, color := style.state1color, dash := none,
         x := df.map Obs.date, y := df.map Obs.percent },
       { name := some "United States", color := style.us_color,
         dash := some "dash", x := df_us.map Obs.date, y := df_us.map Obs.percent },
       { name := state2, color := style.state2color, dash := none,
         x := df_2.map Obs.date, y := df_2.map Obs.percent },
       { name := state3, color := style.state3color, dash := none,
         x := df_3.map Obs.date, y := df_3.map Obs.percent }],
    xTitle := "Date", yTitle := "Percent Unemployed" }

/-- The whole endpoint: normalization followed by the routed builder.
`fetch c` stands for the CSV retrieved for series id `c ++ "UR"`, and
`df_us` for the national `UNRATE` CSV; both are fetched only inside the
builders, after validation, as in the source. -/
def unemployment_visualization (fetch : String → Series) (df_us : Series)
    (y5 : Int) (statecode : String) (statecode2 statecode3 : Option String) :
    Except String (Option Figure) :=
  match normalizeRequest statecode statecode2 statecode3 with
  | Except.error e => Except.error e
  | Except.ok none => Except.ok none
  | Except.ok (some (Dispatch.one a)) =>
      Except.ok (some (single a (fetch a) df_us y5))
  | Except.ok (some (Dispatch.two a b)) =>
      Except.ok (some (two a b (fetch a) (fetch b) df_us y5))
  | Except.ok (some (Dispatch.three a b c)) =>
      Except.ok (some (three a b c (fetch a) (fetch b) (fetch c) df_us y5))

/-- The deduplication policy in the wording of the specification, as an
`else if` precedence chain over three (registered, hence non-empty) input
codes: all equal drops slots 2 and 3; else code1 = code3 drops slot 3; else
code2 = code3 drops slot 3; else code1 = code2 promotes the (non-empty)
slot 3 into slot 2; else nothing is dropped.  Stated from the spec's words
for comparison against `dedup`, which is the source's sequence of four
separate `if` statements. -/
def dedupSpec (c1 c2 c3 : String) : Option String × Option String :=
  if c1 = c2 ∧ c2 = c3 then (none, none)
  else if c1 = c3 then (some c2, none)
  else if c2 = c3 then (some c2, none)
  else if c1 = c2 then (some c3, none)
  else (some c2, some c3)

/-- The aligner in the claim's wording: each component of the national date
must meet or exceed the minimum of that component found across ALL requested
state series together, i.e. the least of the per-series minima.  Stated from
the spec's words for comparison against `alignNational3`. -/
def claimedAlign3 (us st st2 st3 : Series) : Series :=
  us.filter (fun o =>
    decide (min (min (minYear st) (minYear st2)) (minYear st3) ≤ o.date.year) &&
    decide (min (min (minMonth st) (minMonth st2)) (minMonth st3) ≤ o.date.month) &&
    decide (min (min (minDay st) (minDay st2)) (minDay st3) ≤ o.date.day))

/-- Calendar order on dates (year, then month, then day). -/
def dateLexLe (d e : Date) : Bool :=
  decide (d.year < e.year) ||
  (decide (d.year = e.year) &&
    (decide (d.month < e.month) ||
      (decide (d.month = e.month) && decide (d.day ≤ e.day))))

/-- The earliest date of a series under calendar order. -/
def minDate : Series → Date
  | [] => { year := 0, month := 0, day := 0 }
  | o :: rest => rest.foldl (fun m x => if dateLexLe x.date m then x.date else m) o.date

/-- The filter the claim says the aligner is NOT: keep national observations
dated on or after the earliest state start date, comparing whole dates.
Stated from the spec's words for comparison against `alignNational1`. -/
def compoundAlign1 (us st : Series) : Series :=
  us.filter (fun o => dateLexLe (minDate st) o.date)

/-- The filled slots of a normalized request are pairwise distinct. -/
def slotsDistinct (c1 : String) : Option String × Option String → Prop
  | (none, none) => True
  | (some b, none) => c1 ≠ b
  | (none, some c) => c1 ≠ c
  | (some b, some c) => c1 ≠ b ∧ c1 ≠ c ∧ b ≠ c

/-- An optional slot that triggers the 404: present, non-empty (truthy) and
not among the registered codes. -/
def badSlot : Option String → Prop
  | none => False
  | some s => s.isEmpty = false ∧ isRegistered s = false

/-- Every registered code is a non-empty string (they are all two-letter
postal codes), hence truthy in Python. -/
theorem registered_nonempty (c : String) (h : isRegistered c = true) :
    c.isEmpty = false := by
  have hm : c ∈ statecodes.map Prod.fst := by
    have hc := h
    simp only [isRegistered] at hc
    exact List.elem_iff.mp hc
  have hall : ∀ x ∈ statecodes.map Prod.fst, (x : String).isEmpty = false := by decide
  exact hall c hm

/-- The dash styles of the four traces `three` builds, in insertion order:
only the United States trace is dashed. -/
theorem three_dash (c1 c2 c3 : String) (s1 s2 s3 us : Series) (y5 : Int) :
    (three c1 c2 c3 s1 s2 s3 us y5).traces.map Trace.dash =
      [none, some "dash", none, none] := rfl

/-- When any two of the three means coincide, every one of the six
comparison conditions of `three` is false, so the style dict stays empty. -/
theorem styleThree_tie_helper (n1 n2 n3 : String) (a b c : ℚ) (y5 : Int)
    (h : a = b ∨ a = c ∨ b = c) :
    styleThree n1 n2 n3 a b c y5 =
      { title := none, state1color := none, state2color := none,
        state3color := none, us_color := none } := by
  rcases h with h | h | h <;> subst h <;> unfold styleThree <;>
    split_ifs <;>
    first
      | rfl
      | (exfalso; obtain ⟨p, q⟩ : _ ∧ _ := (by assumption); linarith)

/-- With a tie among the three means, no comparison branch of `three`
fires. -/
theorem branchCount_tie (a b c : ℚ) (h : a = b ∨ a = c ∨ b = c) :
    branchCount a b c = 0 := by
  rcases h with h | h | h <;> subst h <;> unfold branchCount <;>
    split_ifs <;>
    first
      | rfl
      | (exfalso; obtain ⟨p, q⟩ : _ ∧ _ := (by assumption); linarith)

/-- C1: for a three-state request whose trailing means are pairwise
distinct, exactly one of the six comparison branches fires (`branchCount`
is one), a narrative title is selected, and the colors follow the ranking:
the state with the least mean is success-green "#4BB543", the state with
the greatest mean is error-red "#CC0000", the middle state is "darkcyan",
and the national series is "black" and is the only dashed trace.  The six
title implications name the narrative selected by each strict ordering. -/
theorem three_state_strict_ordering (n1 n2 n3 : String) (a b c : ℚ) (y5 : Int)
    (hab : a ≠ b) (hac : a ≠ c) (hbc : b ≠ c) :
    branchCount a b c = 1 ∧
    (styleThree n1 n2 n3 a b c y5).title.isSome = true ∧
    (styleThree n1 n2 n3 a b c y5).us_color = some "black" ∧
    (a < b → a < c → (styleThree n1 n2 n3 a b c y5).state1color = some "#4BB543") ∧
    (b < a → c < a → (styleThree n1 n2 n3 a b c y5).state1color = some "#CC0000") ∧
    ((b < a ∧ a < c) ∨ (c < a ∧ a < b) → (styleThree n1 n2 n3 a b c y5).state1color = some "darkcyan") ∧
    (b < a → b < c → (styleThree n1 n2 n3 a b c y5).state2color = some "#4BB543") ∧
    (a < b → c < b → (styleThree n1 n2 n3 a b c y5).state2color = some "#CC0000") ∧
    ((a < b ∧ b < c) ∨ (c < b ∧ b < a) → (styleThree n1 n2 n3 a b c y5).state2color = some "darkcyan") ∧
    (c < a → c < b → (styleThree n1 n2 n3 a b c y5).state3color = some "#4BB543") ∧
    (a < c → b < c → (styleThree n1 n2 n3 a b c y5).state3color = some "#CC0000") ∧
    ((a < c ∧ c < b) ∨ (b < c ∧ c < a) → (styleThree n1 n2 n3 a b c y5).state3color = some "darkcyan") ∧
    (c < b → b < a → (styleThree n1 n2 n3 a b c y5).title =
      some (n1 ++ " Averaged Higher Unemployment than " ++ n2 ++ " and " ++ n3 ++ " since " ++ toString y5 ++ ".")) ∧
    (b < c → c < a → (styleThree n1 n2 n3 a b c y5).title =
      some (n1 ++ " Averaged Higher Unemployment than " ++ n2 ++ " and " ++ n3 ++ " since " ++ toString y5 ++ ".")) ∧
    (c < a → a < b → (styleThree n1 n2 n3 a b c y5).title =
      some (n1 ++ " Averaged Higher Unemployment than " ++ n3 ++ ", but lower than " ++ n2 ++ " since " ++ toString y5 ++ ".")) ∧
    (a < c → c < b → (styleThree n1 n2 n3 a b c y5).title =
      some (n1 ++ " Averaged Lower Unemployment than " ++ n2 ++ " and " ++ n3 ++ " since " ++ toString y5 ++ ".")) ∧
    (a < b → b < c → (styleThree n1 n2 n3 a b c y5).title =
      some (n1 ++ " Averaged Lower Unemployment than " ++ n2 ++ " and " ++ n3 ++ " since " ++ toString y5 ++ ".")) ∧
    (b < a → a < c → (styleThree n1 n2 n3 a b c y5).title =
      some (n1 ++ " Averaged Lower Unemployment than " ++ n3 ++ ", but higher than " ++ n2 ++ " since " ++ toString y5 ++ ".")) ∧
    (∀ (c1 c2 c3 : String) (s1 s2 s3 us : Series),
      (three c1 c2 c3 s1 s2 s3 us y5).traces.map Trace.dash =
        [none, some "dash", none, none]) := by
  rcases lt_trichotomy a b with h1 | h1 | h1 <;>
    rcases lt_trichotomy a c with h2 | h2 | h2 <;>
    rcases lt_trichotomy b c with h3 | h3 | h3 <;>
    first
      | exact absurd h1 hab
      | exact absurd h2 hac
      | exact absurd h3 hbc
      | (exfalso; linarith)
      | simp [styleThree, branchCount, three_dash, h1, h2, h3,
              lt_asymm h1, lt_asymm h2, lt_asymm h3]

/-- Witness for C1 at the concrete strict ordering 1 < 2 < 3. -/
theorem three_state_strict_ordering_witness :
    branchCount (1 : ℚ) 2 3 = 1 :=
  (three_state_strict_ordering "Alabama" "Alaska" "Arizona" 1 2 3 2015
    (by decide) (by decide) (by decide)).1

/-- C2: on three registered (hence upper-case, non-empty) input codes the
source's four sequential deduplication `if`s compute exactly the
specification's `else if` precedence chain `dedupSpec`, the surviving slots
are pairwise distinct, and the three documented examples normalize as
stated: ("CA","ca","CA") to the one-state request CA, ("CA","NY","CA") to
the two-state request (CA, NY), and ("CA","CA","NY") to (CA, NY) by
promotion of slot 3. -/
theorem dedup_exact_precedence (c1 c2 c3 : String)
    (h1 : isRegistered c1 = true) (h2 : isRegistered c2 = true)
    (h3 : isRegistered c3 = true) :
    dedup c1 (some c2) (some c3) = dedupSpec c1 c2 c3 ∧
    slotsDistinct c1 (dedup c1 (some c2) (some c3)) ∧
    normalizeRequest "CA" (some "ca") (some "CA") = Except.ok (some (Dispatch.one "CA")) ∧
    normalizeRequest "CA" (some "NY") (some "CA") = Except.ok (some (Dispatch.two "CA" "NY")) ∧
    normalizeRequest "CA" (some "CA") (some "NY") = Except.ok (some (Dispatch.two "CA" "NY")) := by
  have e1 := registered_nonempty c1 h1
  have e2 := registered_nonempty c2 h2
  have e3 := registered_nonempty c3 h3
  refine ⟨?_, ?_, rfl, rfl, rfl⟩ <;>
  · by_cases d1 : c1 = c2 <;> by_cases d2 : c2 = c3 <;> by_cases d3 : c1 = c3 <;>
      simp_all [dedup, dedupSpec, slotsDistinct, truthy]

/-- Witness for C2 on the registered triple (CA, NY, TX). -/
theorem dedup_exact_precedence_witness :
    dedup "CA" (some "NY") (some "TX") = dedupSpec "CA" "NY" "TX" :=
  (dedup_exact_precedence "CA" "NY" "TX" (by decide) (by decide) (by decide)).1

/-- C4: whenever some non-empty slot fails registry validation after
upper-casing, the endpoint answers with the 404 detail string naming an
offending code, and it does so for every conceivable fetch result and
national series alike — the response is fully determined before any
upstream data could be consulted. -/
theorem eager_validation_404 (c1 : String) (c2 c3 : Option String)
    (h : isRegistered (pyUpper c1) = false ∨ badSlot (c2.map pyUpper) ∨ badSlot (c3.map pyUpper)) :
    ∃ bad : String, isRegistered bad = false ∧
      (bad = pyUpper c1 ∨ c2.map pyUpper = some bad ∨ c3.map pyUpper = some bad) ∧
      detailMsg bad = "State code " ++ bad ++ " not found" ∧
      ∀ (fetch : String → Series) (df_us : Series) (y5 : Int),
        unemployment_visualization fetch df_us y5 c1 c2 c3 = Except.error (detailMsg bad) := by
  by_cases b1 : isRegistered (pyUpper c1) = true
  · have h23 : badSlot (c2.map pyUpper) ∨ badSlot (c3.map pyUpper) := by
      rcases h with h | h | h
      · exact absurd b1 (by simp [h])
      · exact Or.inl h
      · exact Or.inr h
    by_cases b2 : badSlot (c2.map pyUpper)
    · match c2, b2 with
      | some w, b2 =>
        obtain ⟨hw1, hw2⟩ := b2
        refine ⟨pyUpper w, hw2, Or.inr (Or.inl rfl), rfl, fun fetch df_us y5 => ?_⟩
        simp [unemployment_visualization, normalizeRequest, b1, registeredOpt, truthy, hw1, hw2]
    · have b3 : badSlot (c3.map pyUpper) := h23.resolve_left b2
      match c3, b3 with
      | some w, b3 =>
        obtain ⟨hw1, hw2⟩ := b3
        refine ⟨pyUpper w, hw2, Or.inr (Or.inr rfl), rfl, fun fetch df_us y5 => ?_⟩
        match c2, b2 with
        | none, _ =>
          simp [unemployment_visualization, normalizeRequest, b1, registeredOpt, truthy, hw1, hw2]
        | some v, b2 =>
          have b2x : ¬((pyUpper v).isEmpty = false ∧ isRegistered (pyUpper v) = false) := b2
          rcases Bool.eq_false_or_eq_true (isRegistered (pyUpper v)) with hr | hr
          · simp [unemployment_visualization, normalizeRequest, b1, registeredOpt, truthy, hw1, hw2, hr]
          · have he : (pyUpper v).isEmpty = true := by
              rcases Bool.eq_false_or_eq_true ((pyUpper v).isEmpty) with he | he
              · exact he
              · exact absurd ⟨he, hr⟩ b2x
            simp [unemployment_visualization, normalizeRequest, b1, registeredOpt, truthy, hw1, hw2, he]
  · refine ⟨pyUpper c1, by simpa using b1, Or.inl rfl, rfl, fun fetch df_us y5 => ?_⟩
    simp [unemployment_visualization, normalizeRequest, b1]

/-- Witness for C4 at the unrecognized path code "ZZ". -/
theorem eager_validation_404_witness :
    ∃ bad : String, isRegistered bad = false ∧
      (bad = pyUpper "ZZ" ∨ Option.map pyUpper none = some bad ∨ Option.map pyUpper none = some bad) ∧
      detailMsg bad = "State code " ++ bad ++ " not found" ∧
      ∀ (fetch : String → Series) (df_us : Series) (y5 : Int),
        unemployment_visualization fetch df_us y5 "ZZ" none none = Except.error (detailMsg bad) :=
  eager_validation_404 "ZZ" none none (Or.inl (by decide))

/-- C5: the two-state comparator is antisymmetric.  If A's trailing mean
exceeds B's, the request (A, B) selects the "Averaged Higher" narrative
with A red "#CC0000" and B green "#4BB543"; the swapped request (B, A)
selects the "Averaged Lower" narrative, and each state keeps its color
across the swap (position 1 of the first run matches position 2 of the
second and vice versa). -/
theorem two_state_antisymmetry (nA nB : String) (a b : ℚ) (y5 : Int) (h : b < a) :
    styleTwo nA nB a b y5 =
      { title := some (nA ++ " Averaged Higher Unemployment than " ++ nB ++ " since " ++ toString y5 ++ "."),
        state1color := some "#CC0000", state2color := some "#4BB543",
        us_color := some "black" } ∧
    styleTwo nB nA b a y5 =
      { title := some (nB ++ " Averaged Lower Unemployment than " ++ nA ++ " since " ++ toString y5 ++ "."),
        state1color := some "#4BB543", state2color := some "#CC0000",
        us_color := some "black" } ∧
    (styleTwo nA nB a b y5).state1color = (styleTwo nB nA b a y5).state2color ∧
    (styleTwo nA nB a b y5).state2color = (styleTwo nB nA b a y5).state1color := by
  refine ⟨?_, ?_, ?_, ?_⟩ <;> simp [styleTwo, h, lt_asymm h]

/-- Witness for C5 at the concrete means 5 > 4. -/
theorem two_state_antisymmetry_witness :
    (styleTwo "Texas" "Iowa" 5 4 2015).state1color =
      (styleTwo "Iowa" "Texas" 4 5 2015).state2color :=
  (two_state_antisymmetry "Texas" "Iowa" 5 4 2015 (by decide)).2.2.1

/-- C6: equal trailing means always select the "Same" narrative with the
neutral "darkcyan" on the compared-against series, in both the two-state
comparator and the one-state (state versus national) comparator; in
particular that color is neither the red nor the green of the
"higher"/"lower" narratives, so neither of those is ever selected on a
tie. -/
theorem tie_neutral_narrative (n1 n2 : String) (m : ℚ) (y5 : Int) :
    styleTwo n1 n2 m m y5 =
      { title := some (n1 ++ " and " ++ n2 ++ " Averaged the Same Unemployment since " ++ toString y5 ++ "."),
        state1color := some "#4BB543", state2color := some "darkcyan",
        us_color := some "black" } ∧
    styleSingle n1 m m y5 =
      { title := some (n1 ++ " Averaged the Same Unemployment as the United States since " ++ toString y5 ++ "."),
        state1color := some "#4BB543", us_color := some "darkcyan" } ∧
    (styleTwo n1 n2 m m y5).state2color ≠ some "#CC0000" ∧
    (styleTwo n1 n2 m m y5).state2color ≠ some "#4BB543" ∧
    (styleSingle n1 m m y5).us_color ≠ some "#CC0000" ∧
    (styleSingle n1 m m y5).us_color ≠ some "#4BB543" := by
  refine ⟨?_, ?_, ?_, ?_, ?_, ?_⟩ <;> simp [styleTwo, styleSingle, lt_irrefl]

/-- C7: a three-state request with any tie among the trailing means fires
none of the six branches (`branchCount` is zero), leaves every style field
unset, and still produces the chart: four traces, the axis titles, but a
null title and null line colors. -/
theorem three_state_tie_unstyled (c1 c2 c3 : String) (s1 s2 s3 us : Series) (y5 : Int)
    (h : trailingMean y5 s1 = trailingMean y5 s2 ∨ trailingMean y5 s1 = trailingMean y5 s3 ∨
         trailingMean y5 s2 = trailingMean y5 s3) :
    branchCount (trailingMean y5 s1) (trailingMean y5 s2) (trailingMean y5 s3) = 0 ∧
    (∀ n1 n2 n3 : String,
      styleThree n1 n2 n3 (trailingMean y5 s1) (trailingMean y5 s2) (trailingMean y5 s3) y5 =
        { title := none, state1color := none, state2color := none,
          state3color := none, us_color := none }) ∧
    (three c1 c2 c3 s1 s2 s3 us y5).title = none ∧
    (three c1 c2 c3 s1 s2 s3 us y5).traces.map Trace.color = [none, none, none, none] ∧
    (three c1 c2 c3 s1 s2 s3 us y5).traces.length = 4 ∧
    (three c1 c2 c3 s1 s2 s3 us y5).xTitle = "Date" ∧
    (three c1 c2 c3 s1 s2 s3 us y5).yTitle = "Percent Unemployed" := by
  have hs := fun n1 n2 n3 => styleThree_tie_helper n1 n2 n3 _ _ _ y5 h
  refine ⟨branchCount_tie _ _ _ h, hs, ?_, ?_, rfl, rfl, rfl⟩
  · simp [three, hs]
  · simp [three, hs]

/-- Witness for C7 at two concretely equal means. -/
theorem three_state_tie_unstyled_witness :
    branchCount
      (trailingMean 2015 [{ date := { year := 2015, month := 1, day := 1 }, percent := 5 }])
      (trailingMean 2015 [{ date := { year := 2015, month := 1, day := 1 }, percent := 5 }])
      (trailingMean 2015 [{ date := { year := 2015, month := 1, day := 1 }, percent := 7 }]) = 0 :=
  (three_state_tie_unstyled "CA" "NY" "TX"
    [{ date := { year := 2015, month := 1, day := 1 }, percent := 5 }]
    [{ date := { year := 2015, month := 1, day := 1 }, percent := 5 }]
    [{ date := { year := 2015, month := 1, day := 1 }, percent := 7 }]
    [] 2015 (Or.inl rfl)).1

/-- C3 counterexample: with state minimum years 1980, 1976 and 1976, the
source keeps only national rows with year at least 1980 (each per-series
minimum must be met), so a 1977 national row is dropped; the claim's
filter — each component at least the minimum found across ALL requested
series, here 1976 — would keep it.  The two filters therefore differ on
this input, refuting the claim as stated. -/
theorem align_min_across_counterexample :
    alignNational3
        [{ date := { year := 1977, month := 6, day := 1 }, percent := 2 }]
        [{ date := { year := 1980, month := 1, day := 1 }, percent := 1 }]
        [{ date := { year := 1976, month := 1, day := 1 }, percent := 1 }]
        [{ date := { year := 1976, month := 1, day := 1 }, percent := 1 }] = [] ∧
    claimedAlign3
        [{ date := { year := 1977, month := 6, day := 1 }, percent := 2 }]
        [{ date := { year := 1980, month := 1, day := 1 }, percent := 1 }]
        [{ date := { year := 1976, month := 1, day := 1 }, percent := 1 }]
        [{ date := { year := 1976, month := 1, day := 1 }, percent := 1 }] =
      [{ date := { year := 1977, month := 6, day := 1 }, percent := 2 }] ∧
    alignNational3
        [{ date := { year := 1977, month := 6, day := 1 }, percent := 2 }]
        [{ date := { year := 1980, month := 1, day := 1 }, percent := 1 }]
        [{ date := { year := 1976, month := 1, day := 1 }, percent := 1 }]
        [{ date := { year := 1976, month := 1, day := 1 }, percent := 1 }] ≠
      claimedAlign3
        [{ date := { year := 1977, month := 6, day := 1 }, percent := 2 }]
        [{ date := { year := 1980, month := 1, day := 1 }, percent := 1 }]
        [{ date := { year := 1976, month := 1, day := 1 }, percent := 1 }]
        [{ date := { year := 1976, month := 1, day := 1 }, percent := 1 }] := by
  refine ⟨by decide, by decide, by decide⟩

/-- C3 as amended: the aligner keeps exactly the national rows whose year,
month and day components each meet or exceed EVERY requested state series'
own minimum for that component (field-wise and per series), shown for the
one-state and three-state aligners; and it is not the compound filter
"date on or after the earliest state start date", which disagrees with it
on the concrete series below (a March 2000 national row is kept by the
source although it predates the earliest state date, May 2000). -/
theorem align_fieldwise_per_series :
    (∀ (o : Obs) (us st st2 st3 : Series),
      o ∈ alignNational3 us st st2 st3 ↔
        o ∈ us ∧ minYear st ≤ o.date.year ∧ minYear st2 ≤ o.date.year ∧
        minYear st3 ≤ o.date.year ∧ minMonth st ≤ o.date.month ∧
        minMonth st2 ≤ o.date.month ∧ minMonth st3 ≤ o.date.month ∧
        minDay st ≤ o.date.day ∧ minDay st2 ≤ o.date.day ∧ minDay st3 ≤ o.date.day) ∧
    (∀ (o : Obs) (us st : Series),
      o ∈ alignNational1 us st ↔
        o ∈ us ∧ minYear st ≤ o.date.year ∧ minMonth st ≤ o.date.month ∧
        minDay st ≤ o.date.day) ∧
    alignNational1
        [{ date := { year := 2000, month := 3, day := 20 }, percent := 3 }]
        [{ date := { year := 2000, month := 5, day := 10 }, percent := 1 },
         { date := { year := 2001, month := 3, day := 15 }, percent := 2 }] =
      [{ date := { year := 2000, month := 3, day := 20 }, percent := 3 }] ∧
    compoundAlign1
        [{ date := { year := 2000, month := 3, day := 20 }, percent := 3 }]
        [{ date := { year := 2000, month := 5, day := 10 }, percent := 1 },
         { date := { year := 2001, month := 3, day := 15 }, percent := 2 }] = [] := by
  refine ⟨?_, ?_, by decide, by decide⟩
  · intro o us st st2 st3
    simp [alignNational3, List.mem_filter, and_assoc]
  · intro o us st
    simp [alignNational1, List.mem_filter, and_assoc]

/-- C8: the trailing-period mean is the arithmetic mean (sum over count) of
exactly the percentage values observed in calendar year `y5`; it depends
only on the rows of that year (series agreeing on that filtered selection
have equal means), and prepending any observation of a different year
leaves it unchanged. -/
theorem trailing_window_mean :
    (∀ (y5 : Int) (s : Series),
      trailingMean y5 s =
        ((s.filter (fun o => o.date.year == y5)).map Obs.percent).sum /
        (((s.filter (fun o => o.date.year == y5)).map Obs.percent).length : ℚ)) ∧
    (∀ (y5 : Int) (s t : Series),
      s.filter (fun o => o.date.year == y5) = t.filter (fun o => o.date.year == y5) →
      trailingMean y5 s = trailingMean y5 t) ∧
    (∀ (y5 : Int) (s : Series) (o : Obs), o.date.year ≠ y5 →
      trailingMean y5 (o :: s) = trailingMean y5 s) := by
  refine ⟨fun y5 s => rfl, fun y5 s t h => by simp [trailingMean, listMean, h],
    fun y5 s o ho => ?_⟩
  simp [trailingMean, listMean, List.filter_cons, beq_iff_eq, ho]

/-- Witness for C8: a 2014 observation does not change the 2015 mean. -/
theorem trailing_window_mean_witness :
    trailingMean 2015 [{ date := { year := 2014, month := 1, day := 1 }, percent := 3 }] =
      trailingMean 2015 [] :=
  trailing_window_mean.2.2 2015 []
    { date := { year := 2014, month := 1, day := 1 }, percent := 3 } (by decide)

/-- C9: the end-to-end single-state scenario.  With series whose trailing
means are CA = 5 and US = 4, `single "CA"` titles the chart "California
Unemployment Rates Averaged Higher than the United States since
(year-5).", colors the California trace "#CC0000" and the United States
trace "#4BB543". -/
theorem single_state_ca_scenario (y5 : Int) :
    trailingMean y5 [{ date := { year := y5, month := 1, day := 1 }, percent := 5 }] = 5 ∧
    trailingMean y5 [{ date := { year := y5, month := 1, day := 1 }, percent := 4 }] = 4 ∧
    (single "CA" [{ date := { year := y5, month := 1, day := 1 }, percent := 5 }]
        [{ date := { year := y5, month := 1, day := 1 }, percent := 4 }] y5).title =
      some ("California Unemployment Rates Averaged Higher than the United States since " ++ toString y5 ++ ".") ∧
    (single "CA" [{ date := { year := y5, month := 1, day := 1 }, percent := 5 }]
        [{ date := { year := y5, month := 1, day := 1 }, percent := 4 }] y5).traces.map Trace.color =
      [some "#CC0000", some "#4BB543"] ∧
    (single "CA" [{ date := { year := y5, month := 1, day := 1 }, percent := 5 }]
        [{ date := { year := y5, month := 1, day := 1 }, percent := 4 }] y5).traces.map Trace.name =
      [some "California", some "United States"] := by
  have halign : alignNational1
      [{ date := { year := y5, month := 1, day := 1 }, percent := (4 : ℚ) }]
      [{ date := { year := y5, month := 1, day := 1 }, percent := (5 : ℚ) }] =
      [{ date := { year := y5, month := 1, day := 1 }, percent := (4 : ℚ) }] := by
    simp [alignNational1, minYear, minMonth, minDay, List.filter]
  have hst : trailingMean y5
      [{ date := { year := y5, month := 1, day := 1 }, percent := (5 : ℚ) }] = 5 := by
    norm_num [trailingMean, listMean, List.filter]
  have hus : trailingMean y5
      [{ date := { year := y5, month := 1, day := 1 }, percent := (4 : ℚ) }] = 4 := by
    norm_num [trailingMean, listMean, List.filter]
  have hname : lookupState "CA" = some "California" := rfl
  have h54 : (4 : ℚ) < 5 := by norm_num
  have hlit : ("California" ++ " Unemployment Rates Averaged Higher than the United States since " : String) =
      "California Unemployment Rates Averaged Higher than the United States since " := rfl
  refine ⟨hst, hus, ?_, ?_, ?_⟩ <;>
    simp [single, halign, hst, hus, styleSingle, hname, pyStr, h54, lt_asymm h54, hlit]

/-- Witness for C9 with the window year fixed to 2015. -/
theorem single_state_ca_scenario_witness :
    trailingMean 2015 [{ date := { year := 2015, month := 1, day := 1 }, percent := 5 }] = 5 :=
  (single_state_ca_scenario 2015).1

/-- C10: a request carrying a valid first code and a distinct valid third
code but no second code passes validation, is untouched by deduplication
(slot 2 empty, slot 3 full), matches none of the three dispatch branches,
and so the endpoint returns the Python `None` — an HTTP 200 with a null
body — for every possible fetched dataset. -/
theorem dangling_third_slot (c1 c3 : String)
    (h1 : isRegistered (pyUpper c1) = true) (h3 : isRegistered (pyUpper c3) = true)
    (hne : pyUpper c1 ≠ pyUpper c3) :
    normalizeRequest c1 none (some c3) = Except.ok none ∧
    ∀ (fetch : String → Series) (df_us : Series) (y5 : Int),
      unemployment_visualization fetch df_us y5 c1 none (some c3) = Except.ok none := by
  have e3 := registered_nonempty _ h3
  have hn : normalizeRequest c1 none (some c3) = Except.ok none := by
    simp [normalizeRequest, registeredOpt, truthy, h1, h3, e3, dedup, dispatch, hne]
  exact ⟨hn, fun fetch df_us y5 => by simp [unemployment_visualization, hn]⟩

/-- Witness for C10 on the concrete request (CA, -, NY). -/
theorem dangling_third_slot_witness :
    normalizeRequest "CA" none (some "NY") = Except.ok none :=
  (dangling_third_slot "CA" "NY" (by decide) (by decide) (by decide)).1

end Viz


